import Mathlib

/-!
Shallow embedding of `src/main.py` (FastAPI backend coordinating a Judge0
sandbox and an OpenAI completion service), together with proofs about the
claims of its specification.

Modelling conventions:
* Python `str` is Lean `String`; Python `Optional[str]` is `Option String`.
* A JSON object field that may be absent or `null` is `Option (Option String)`:
  `none` = key absent, `some none` = key present with `null`,
  `some (some s)` = key present with string value `s`.
* The module-level dict `executions` is an association list with
  overwrite-on-insert semantics (`dictInsert` / `dictFind`).
* The two possible `str(uuid.uuid4())` calls inside `run_code` are modelled by
  explicit parameters `fresh1` (line 93) and `fresh2` (line 122).
* The remote Judge0 call is modelled by a `SandboxResult` parameter: either a
  transport-level failure (`requests.exceptions.RequestException`, covering
  both connection errors and `raise_for_status`) or a parsed JSON response.
* An unhandled Python exception escaping the handler is `RunOutcome.uncaught`
  with the exception class name; an explicitly raised `HTTPException` is
  `RunOutcome.httpError` with its status code and detail.
* Python case folding is modelled with `Char.toLower`, which agrees with
  `str.lower` on the ASCII range relevant to the `"input"` heuristic.
-/

/-- Stored value of one entry of the `executions` dict (main.py lines 96-99
and 123): the source text (possibly `None`) and the accumulated stdin. -/
structure ExecEntry where
  source_code : Option String
  stdin : String
deriving DecidableEq

/-- The in-memory `executions : Dict[str, Dict]` store (main.py line 38). -/
def Store := List (String × ExecEntry)
deriving DecidableEq

/-- Request body of `/run_code/` (`CodeRequest`, main.py lines 41-45). -/
structure CodeRequest where
  language_id : Int
  source_code : Option String
  stdin : Option String
  execution_id : Option String
deriving DecidableEq

/-- Parsed JSON body of a successful Judge0 response; each field may be
absent (`none`) or null (`some none`) or a string (`some (some s)`). -/
structure SandboxResponse where
  stdout : Option (Option String)
  stderr : Option (Option String)
  compile_output : Option (Option String)
  message : Option (Option String)
deriving DecidableEq

/-- Result of the delegated Judge0 call: transport failure
(`requests.exceptions.RequestException`, raised by `requests.post` or by
`raise_for_status` on a non-success status) or a parsed response. -/
inductive SandboxResult where
  | transportFailure (msg : String)
  | ok (resp : SandboxResponse)
deriving DecidableEq

/-- The JSON body returned by `run_code` on success (main.py lines 127-132). -/
structure RunResponse where
  output : String
  error : Option String
  requires_input : Bool
  execution_id : Option String
deriving DecidableEq

/-- How one `/run_code/` request terminates. -/
inductive RunOutcome where
  | ok (resp : RunResponse)
  | httpError (status : Nat) (detail : String)
  | uncaught (exc : String)
deriving DecidableEq

/-- The arguments of the single Judge0 submission the handler makes
(main.py lines 101-111). -/
structure SandboxCall where
  source_code : Option String
  language_id : Int
  stdin : String
  cpu_time_limit : Nat
  memory_limit : Nat
deriving DecidableEq

/-- Full observable effect of one `/run_code/` request: the sandbox
invocation it made, its outcome, and the `executions` store afterwards. -/
structure RunResult where
  call : SandboxCall
  outcome : RunOutcome
  store : Store

/-- Lookup in the `executions` dict: `executions[k]` / `k in executions`. -/
def dictFind : Store → String → Option ExecEntry
  | [], _ => none
  | (k', v) :: rest, k => if k' = k then some v else dictFind rest k

/-- Assignment `executions[k] = v`: overwrite if present, else append. -/
def dictInsert : Store → String → ExecEntry → Store
  | [], k, v => [(k, v)]
  | (k', v') :: rest, k, v =>
      if k' = k then (k, v) :: rest else (k', v') :: dictInsert rest k v

/-- Python `d.get(key, "")` on a field that may be absent or null: an absent
key yields the default `""`, a null value yields Python `None`. -/
def pyGet (field : Option (Option String)) (default : String) : Option String :=
  match field with
  | none => some default
  | some v => v

/-- Python `a or b` where `a` is a string-or-None value: `None` and the
empty string are falsy. -/
def pyOrStrOpt (a b : Option String) : Option String :=
  match a with
  | none => b
  | some s => if s.isEmpty then b else some s

/-- Python `request.execution_id or fresh` (main.py line 122): `None` and
the empty string are falsy. -/
def pyOrId (o : Option String) (fresh : String) : String :=
  match o with
  | none => fresh
  | some s => if s.isEmpty then fresh else s

/-- Boolean substring search on char lists, the semantics of Python's
`pat in s` for strings. -/
def substrB (pat : List Char) : List Char → Bool
  | [] => pat.isEmpty
  | c :: rest => pat.isPrefixOf (c :: rest) || substrB pat rest

/-- The diagnostic priority chain of main.py line 117:
`result.get("stderr", "") or result.get("compile_output", "") or
result.get("message", "")`. -/
def errorChain (resp : SandboxResponse) : Option String :=
  pyOrStrOpt (pyGet resp.stderr "")
    (pyOrStrOpt (pyGet resp.compile_output "") (pyGet resp.message ""))

/-- The awaiting-input heuristic of main.py line 119:
`"input" in output.lower() or output.endswith(": ")`. -/
def requiresInputFlag (s : String) : Bool :=
  substrB "input".toList (s.toList.map Char.toLower)
    || [':', ' '].isSuffixOf s.toList

/-- Session resolution (main.py line 88): the condition
`request.execution_id and request.execution_id in executions`, returning the
found entry when the continuation branch is taken. -/
def resolveCont (store : Store) (req : CodeRequest) : Option ExecEntry :=
  match req.execution_id with
  | none => none
  | some eid => if eid.isEmpty then none else dictFind store eid

/-- The part of `run_code` from the Judge0 submission on (main.py
lines 101-136), given the resolved source, stdin and store. -/
def afterResolve (req : CodeRequest) (fresh2 : String) (src : Option String)
    (sin : String) (st : Store) (sb : SandboxResult) : RunResult :=
  let call : SandboxCall := ⟨src, req.language_id, sin, 10, 262144⟩
  match sb with
  | .transportFailure msg =>
      ⟨call, .httpError 502 ("Judge0 connection error: " ++ msg), st⟩
  | .ok resp =>
      match pyGet resp.stdout "" with
      | none => ⟨call, .uncaught "AttributeError", st⟩
      | some output =>
          if requiresInputFlag output then
            ⟨call,
             .ok ⟨output, errorChain resp, true, some (pyOrId req.execution_id fresh2)⟩,
             dictInsert st (pyOrId req.execution_id fresh2) ⟨src, sin⟩⟩
          else
            ⟨call, .ok ⟨output, errorChain resp, false, none⟩, st⟩

/-- The `/run_code/` handler (main.py lines 85-136), with the store, the two
potential fresh uuid strings, and the sandbox's answer made explicit. -/
def run_code (store : Store) (req : CodeRequest) (fresh1 fresh2 : String)
    (sb : SandboxResult) : RunResult :=
  match resolveCont store req with
  | some entry =>
      afterResolve req fresh2 entry.source_code
        (entry.stdin ++ "\n" ++ (req.stdin.getD "")) store sb
  | none =>
      afterResolve req fresh2 req.source_code (req.stdin.getD "")
        (dictInsert store fresh1 ⟨req.source_code, req.stdin.getD ""⟩) sb

/-- One element of the `"message"` object of an OpenAI choice; the
`"content"` key may be absent. -/
structure OpenAIMessage where
  content : Option String
deriving DecidableEq

/-- One element of the `"choices"` array; the `"message"` key may be absent. -/
structure OpenAIChoice where
  message : Option OpenAIMessage
deriving DecidableEq

/-- Parsed JSON body of a successful OpenAI response; the `"choices"` key may
be absent. -/
structure OpenAIResponse where
  choices : Option (List OpenAIChoice)
deriving DecidableEq

/-- Result of the HTTP round trip inside `make_openai_request`
(main.py lines 66-70): success, an `httpx.HTTPStatusError`, an
`httpx.ReadTimeout`, or any other exception — e.g. `httpx.ConnectError` or
`httpx.ConnectTimeout` when the service cannot be reached — which the two
except clauses at main.py lines 71-76 do not catch; `connectionFailure`
carries that exception's class name. -/
inductive OpenAITransport where
  | ok (resp : OpenAIResponse)
  | httpStatusError
  | readTimeout
  | connectionFailure (exc : String)
deriving DecidableEq

/-- The dict that `make_openai_request` returns to its caller: either the
parsed JSON, or the `{"error": msg}` dict built in an except branch. -/
inductive OpenAIDict where
  | json (resp : OpenAIResponse)
  | errDict (msg : String)
deriving DecidableEq

/-- `make_openai_request` (main.py lines 61-77): it catches only
`HTTPStatusError` and `ReadTimeout` (turning them into an `{"error": msg}`
dict); every other exception of the round trip propagates to the calling
endpoint, modelled as `Except.error` with the exception name. -/
def make_openai_request (t : OpenAITransport) : Except String OpenAIDict :=
  match t with
  | .ok resp => .ok (.json resp)
  | .httpStatusError => .ok (.errDict "OpenAI API request failed")
  | .readTimeout => .ok (.errDict "OpenAI API request timed out")
  | .connectionFailure exc => .error exc

/-- How one LLM-backed endpoint request terminates: a body string, an
explicit `HTTPException`, or an unhandled Python exception. -/
inductive EndpointResult where
  | ok (body : String)
  | httpError (status : Nat) (detail : String)
  | uncaught (exc : String)
deriving DecidableEq

/-- The subscript chain `resp["choices"][0]["message"]["content"]` used by
`explain_error`, `translate_code` and `debug_code`: a missing key raises
`KeyError`, an empty choices array raises `IndexError`. -/
def extractContent (resp : OpenAIResponse) : EndpointResult :=
  match resp.choices with
  | none => .uncaught "KeyError"
  | some [] => .uncaught "IndexError"
  | some (c :: _) =>
      match c.message with
      | none => .uncaught "KeyError"
      | some m =>
          match m.content with
          | none => .uncaught "KeyError"
          | some s => .ok s

/-- The `/explain_error/` handler (main.py lines 139-149): an exception
escaping `make_openai_request` propagates uncaught; otherwise it indexes
`result["choices"]` without checking for the `"error"` dict, so a caught
transport failure still raises `KeyError`. -/
def explain_error (t : OpenAITransport) : EndpointResult :=
  match make_openai_request t with
  | .error exc => .uncaught exc
  | .ok (.errDict _) => .uncaught "KeyError"
  | .ok (.json resp) => extractContent resp

/-- The `/translate_code/` handler (main.py lines 152-170): an exception
escaping `make_openai_request` propagates uncaught; an `"error"` dict
becomes `HTTPException(500)`, otherwise the first choice is extracted. -/
def translate_code (t : OpenAITransport) : EndpointResult :=
  match make_openai_request t with
  | .error exc => .uncaught exc
  | .ok (.errDict msg) => .httpError 500 msg
  | .ok (.json resp) => extractContent resp

/-- The `/debug/` handler (main.py lines 173-187), same shape as
`translate_code`. -/
def debug_code (t : OpenAITransport) : EndpointResult :=
  match make_openai_request t with
  | .error exc => .uncaught exc
  | .ok (.errDict msg) => .httpError 500 msg
  | .ok (.json resp) => extractContent resp

/-- The `/chatgpt_search/` handler (main.py lines 190-200): an exception
escaping `make_openai_request` propagates uncaught; otherwise
`result.get("choices", [{}])[0].get("message", {}).get("content",
"Error fetching code")`: of the dict lookups only an empty choices array can
raise (`IndexError`); every missing key falls back to the default. -/
def chatgpt_search (t : OpenAITransport) : EndpointResult :=
  match make_openai_request t with
  | .error exc => .uncaught exc
  | .ok (.errDict _) => .ok "Error fetching code"
  | .ok (.json resp) =>
      match resp.choices with
      | none => .ok "Error fetching code"
      | some [] => .uncaught "IndexError"
      | some (c :: _) =>
          match c.message with
          | none => .ok "Error fetching code"
          | some m =>
              match m.content with
              | none => .ok "Error fetching code"
              | some s => .ok s

/-! Helper lemmas about the store and the handler. -/

theorem dictFind_dictInsert (st : Store) (k : String) (v : ExecEntry) (j : String) :
    dictFind (dictInsert st k v) j = if k = j then some v else dictFind st j := by
  induction st with
  | nil => simp [dictInsert, dictFind]
  | cons hd rest ih =>
    obtain ⟨k', v'⟩ := hd
    by_cases hk : k' = k
    · subst hk
      simp only [dictInsert, if_pos rfl, dictFind]
      by_cases hj : k' = j <;> simp [dictFind, hj]
    · simp only [dictInsert, if_neg hk, dictFind]
      by_cases hj : k' = j
      · subst hj
        have : k ≠ k' := fun h => hk h.symm
        simp [this]
      · simp [hj, ih]

theorem substrB_iff (pat s : List Char) : substrB pat s = true ↔ pat <:+: s := by
  induction s with
  | nil => simp [substrB, List.isEmpty_iff, List.infix_nil]
  | cons c rest ih =>
    simp [substrB, Bool.or_eq_true, List.isPrefixOf_iff_prefix, ih, List.infix_cons_iff]

theorem requiresInputFlag_iff (s : String) :
    requiresInputFlag s = true ↔
      ("input".toList <:+: s.toList.map Char.toLower) ∨ ([':', ' '] <:+ s.toList) := by
  simp [requiresInputFlag, Bool.or_eq_true, substrB_iff, List.isSuffixOf_iff_suffix]

theorem resolveCont_some (st : Store) (req : CodeRequest) (eid : String) (entry : ExecEntry)
    (he : req.execution_id = some eid) (hne : eid.isEmpty = false)
    (hf : dictFind st eid = some entry) :
    resolveCont st req = some entry := by
  simp [resolveCont, he, hne, hf]

theorem afterResolve_call (req : CodeRequest) (f2 : String) (src : Option String)
    (sin : String) (st : Store) (sb : SandboxResult) :
    (afterResolve req f2 src sin st sb).call = ⟨src, req.language_id, sin, 10, 262144⟩ := by
  cases sb with
  | transportFailure m => rfl
  | ok resp =>
      cases h : pyGet resp.stdout "" with
      | none => simp [afterResolve, h]
      | some s => by_cases hf : requiresInputFlag s <;> simp [afterResolve, h, hf]

theorem run_code_outcome_ok (st : Store) (req : CodeRequest) (f1 f2 : String)
    (resp : SandboxResponse) (s : String) (hs : pyGet resp.stdout "" = some s) :
    (run_code st req f1 f2 (.ok resp)).outcome =
      .ok ⟨s, errorChain resp, requiresInputFlag s,
           if requiresInputFlag s then some (pyOrId req.execution_id f2) else none⟩ := by
  cases hc : resolveCont st req <;>
    by_cases hf : requiresInputFlag s <;>
      simp [run_code, hc, afterResolve, hs, hf]

theorem afterResolve_store (req : CodeRequest) (f2 : String) (src : Option String)
    (sin : String) (st : Store) (sb : SandboxResult) :
    (afterResolve req f2 src sin st sb).store = st ∨
    ∃ k v, (afterResolve req f2 src sin st sb).store = dictInsert st k v := by
  cases sb with
  | transportFailure m => left; rfl
  | ok resp =>
      cases h : pyGet resp.stdout "" with
      | none => left; simp [afterResolve, h]
      | some s =>
          by_cases hf : requiresInputFlag s
          · right
            refine ⟨pyOrId req.execution_id f2, ⟨src, sin⟩, ?_⟩
            simp [afterResolve, h, hf]
          · left; simp [afterResolve, h, hf]

theorem dictFind_isSome_dictInsert (st : Store) (k : String) (v : ExecEntry) (j : String)
    (h : (dictFind st j).isSome = true) :
    (dictFind (dictInsert st k v) j).isSome = true := by
  rw [dictFind_dictInsert]; split <;> simp [h]

/-! The claims. -/

/-- C1 counterexample: after a continuation of session `"sid"` whose sandbox
response classifies as not awaiting input (`stdout = "done"`), the id `"sid"`
is still present in the store with its entry intact, and a later call
presenting `"sid"` resolves to that entry (continues the session) instead of
behaving as an unknown session — the handler never deletes store entries. -/
theorem c1_counterexample :
    dictFind (run_code [("sid", ⟨some "src", ""⟩)] ⟨71, none, some "x", some "sid"⟩
      "f1" "f2" (.ok ⟨some (some "done"), none, none, none⟩)).store "sid"
      = some ⟨some "src", ""⟩ ∧
    resolveCont (run_code [("sid", ⟨some "src", ""⟩)] ⟨71, none, some "x", some "sid"⟩
      "f1" "f2" (.ok ⟨some (some "done"), none, none, none⟩)).store
      ⟨71, none, some "y", some "sid"⟩ = some ⟨some "src", ""⟩ := by decide

/-- C1 (amended): for a continuation whose successful sandbox response is
classified as not awaiting input, no continuation id is returned
(`execution_id` is null in the response), but the session is NOT retired:
the store is left unchanged, so the session id is still present with its
entry byte-for-byte intact. -/
theorem c1_session_remains (st : Store) (req : CodeRequest) (f1 f2 : String)
    (resp : SandboxResponse) (eid s : String) (entry : ExecEntry)
    (he : req.execution_id = some eid) (hne : eid.isEmpty = false)
    (hf : dictFind st eid = some entry)
    (hs : pyGet resp.stdout "" = some s) (hni : requiresInputFlag s = false) :
    (run_code st req f1 f2 (.ok resp)).outcome = .ok ⟨s, errorChain resp, false, none⟩ ∧
    (run_code st req f1 f2 (.ok resp)).store = st ∧
    dictFind (run_code st req f1 f2 (.ok resp)).store eid = some entry := by
  have hr := resolveCont_some st req eid entry he hne hf
  have ho := run_code_outcome_ok st req f1 f2 resp s hs
  rw [hni] at ho
  refine ⟨by simpa using ho, ?_, ?_⟩ <;>
    simp [run_code, hr, afterResolve, hs, hni, hf]

/-- C1 witness: concrete instance of `c1_session_remains`. -/
theorem c1_witness :
    (run_code [("sid", ⟨some "src", ""⟩)] ⟨71, none, some "x", some "sid"⟩ "f1" "f2"
      (.ok ⟨some (some "done"), none, none, none⟩)).outcome
      = .ok ⟨"done", some "", false, none⟩ ∧
    (run_code [("sid", ⟨some "src", ""⟩)] ⟨71, none, some "x", some "sid"⟩ "f1" "f2"
      (.ok ⟨some (some "done"), none, none, none⟩)).store = [("sid", ⟨some "src", ""⟩)] ∧
    dictFind (run_code [("sid", ⟨some "src", ""⟩)] ⟨71, none, some "x", some "sid"⟩ "f1" "f2"
      (.ok ⟨some (some "done"), none, none, none⟩)).store "sid" = some ⟨some "src", ""⟩ :=
  c1_session_remains _ _ _ _ _ _ _ _ rfl (by decide) (by decide) rfl (by decide)

/-- C2: for any two run requests — any stores, requests and fresh ids — whose
sandbox responses carry the same stdout text `s`, the returned
`requires_input` flag is the same pure value `requiresInputFlag s`, and that
flag is true exactly when `s` lowercased contains the character sequence
`input` or `s` ends with the two characters colon-space. -/
theorem c2_classification_pure (st st' : Store) (req req' : CodeRequest)
    (f1 f2 g1 g2 : String) (resp resp' : SandboxResponse) (s : String)
    (hs : pyGet resp.stdout "" = some s) (hs' : pyGet resp'.stdout "" = some s) :
    (run_code st req f1 f2 (.ok resp)).outcome =
      .ok ⟨s, errorChain resp, requiresInputFlag s,
        if requiresInputFlag s then some (pyOrId req.execution_id f2) else none⟩ ∧
    (run_code st' req' g1 g2 (.ok resp')).outcome =
      .ok ⟨s, errorChain resp', requiresInputFlag s,
        if requiresInputFlag s then some (pyOrId req'.execution_id g2) else none⟩ ∧
    (requiresInputFlag s = true ↔
      ("input".toList <:+: s.toList.map Char.toLower) ∨ ([':', ' '] <:+ s.toList)) :=
  ⟨run_code_outcome_ok st req f1 f2 resp s hs,
   run_code_outcome_ok st' req' g1 g2 resp' s hs',
   requiresInputFlag_iff s⟩

/-- C2 witness: two different runs with stdout `"Enter your name: "` are both
classified by the same flag. -/
theorem c2_witness :
    (run_code [] ⟨71, some "x", none, none⟩ "a" "b"
      (.ok ⟨some (some "Enter your name: "), none, none, none⟩)).outcome =
      .ok ⟨"Enter your name: ", some "", requiresInputFlag "Enter your name: ",
        if requiresInputFlag "Enter your name: " then some "b" else none⟩ ∧
    (run_code [("k", ⟨none, "z"⟩)] ⟨63, none, some "w", some "k"⟩ "c" "d"
      (.ok ⟨some (some "Enter your name: "), some (some "e"), none, none⟩)).outcome =
      .ok ⟨"Enter your name: ", some "e", requiresInputFlag "Enter your name: ",
        if requiresInputFlag "Enter your name: " then some "k" else none⟩ ∧
    (requiresInputFlag "Enter your name: " = true ↔
      ("input".toList <:+: "Enter your name: ".toList.map Char.toLower) ∨
        ([':', ' '] <:+ "Enter your name: ".toList)) :=
  c2_classification_pure _ _ _ _ _ _ _ _ _ _ _ rfl rfl

/-- C3: when the request's `execution_id` names a session present in the
store and the new stdin chunk is non-empty, the sandbox is invoked with the
session's stored source (the caller-supplied source is ignored: it does not
appear in the call) and the stored accumulated input followed by a newline
followed by the new chunk. -/
theorem c3_continuation_inputs (st : Store) (req : CodeRequest) (f1 f2 : String)
    (sb : SandboxResult) (eid chunk : String) (entry : ExecEntry)
    (he : req.execution_id = some eid) (hne : eid.isEmpty = false)
    (hf : dictFind st eid = some entry)
    (hc : req.stdin = some chunk) (_hcne : chunk.isEmpty = false) :
    (run_code st req f1 f2 sb).call =
      ⟨entry.source_code, req.language_id, entry.stdin ++ "\n" ++ chunk, 10, 262144⟩ := by
  have hr := resolveCont_some st req eid entry he hne hf
  simp [run_code, hr, afterResolve_call, hc]

/-- C3 witness: the spec scenario — a session created with empty input,
continued with stdin `"Ann"`, makes the sandbox receive the stream
`"" ++ "\n" ++ "Ann"`, with the stored source and not the caller's. -/
theorem c3_witness :
    (run_code [("sid", ⟨some "src", ""⟩)] ⟨71, some "ignored", some "Ann", some "sid"⟩
      "f1" "f2" (.transportFailure "x")).call = ⟨some "src", 71, "\nAnn", 10, 262144⟩ :=
  c3_continuation_inputs [("sid", ⟨some "src", ""⟩)]
    ⟨71, some "ignored", some "Ann", some "sid"⟩ "f1" "f2" (.transportFailure "x")
    "sid" "Ann" ⟨some "src", ""⟩ rfl (by decide) (by decide) rfl (by decide)

/-- C4: a continuation of a session present in the store whose delegated
sandbox call fails at the transport level returns the distinct HTTP 502
upstream-unavailable error and leaves the store — in particular that
session's entry — byte-for-byte unchanged. -/
theorem c4_transport_isolation (st : Store) (req : CodeRequest) (f1 f2 msg eid : String)
    (entry : ExecEntry) (he : req.execution_id = some eid) (hne : eid.isEmpty = false)
    (hf : dictFind st eid = some entry) :
    (run_code st req f1 f2 (.transportFailure msg)).outcome =
      .httpError 502 ("Judge0 connection error: " ++ msg) ∧
    (run_code st req f1 f2 (.transportFailure msg)).store = st ∧
    dictFind (run_code st req f1 f2 (.transportFailure msg)).store eid = some entry := by
  have hr := resolveCont_some st req eid entry he hne hf
  refine ⟨?_, ?_, ?_⟩ <;> simp [run_code, hr, afterResolve, hf]

/-- C4 witness: concrete instance of `c4_transport_isolation`. -/
theorem c4_witness :
    (run_code [("sid", ⟨some "src", "A"⟩)] ⟨71, none, some "B", some "sid"⟩ "f1" "f2"
      (.transportFailure "conn reset")).outcome =
      .httpError 502 "Judge0 connection error: conn reset" ∧
    (run_code [("sid", ⟨some "src", "A"⟩)] ⟨71, none, some "B", some "sid"⟩ "f1" "f2"
      (.transportFailure "conn reset")).store = [("sid", ⟨some "src", "A"⟩)] ∧
    dictFind (run_code [("sid", ⟨some "src", "A"⟩)] ⟨71, none, some "B", some "sid"⟩ "f1" "f2"
      (.transportFailure "conn reset")).store "sid" = some ⟨some "src", "A"⟩ :=
  c4_transport_isolation _ _ _ _ _ _ _ rfl (by decide) (by decide)

/-- C5 counterexample: a new run (empty store, no `execution_id`) whose
sandbox call fails at the transport level does NOT leave the store's
contents equal to before — the speculatively created session entry, written
before the delegated call, survives the failure. -/
theorem c5_counterexample :
    (run_code [] ⟨71, some "print(1)", none, none⟩ "fid" "gid"
      (.transportFailure "down")).store ≠ ([] : Store) ∧
    (run_code [] ⟨71, some "print(1)", none, none⟩ "fid" "gid"
      (.transportFailure "down")).outcome =
      .httpError 502 "Judge0 connection error: down" := by decide

/-- C5 (amended): on a transport failure the caller always receives the
distinct 502 upstream-unavailable error; the store is unchanged when the
request continued an existing session, but for a new run the store already
holds the session entry speculatively created (at the fresh id, from the
request's source and stdin) before delegation. -/
theorem c5_transport_store_effect (st : Store) (req : CodeRequest) (f1 f2 msg : String) :
    ((resolveCont st req).isSome = true →
      (run_code st req f1 f2 (.transportFailure msg)).store = st) ∧
    (resolveCont st req = none →
      (run_code st req f1 f2 (.transportFailure msg)).store =
        dictInsert st f1 ⟨req.source_code, req.stdin.getD ""⟩) ∧
    (run_code st req f1 f2 (.transportFailure msg)).outcome =
      .httpError 502 ("Judge0 connection error: " ++ msg) := by
  refine ⟨?_, ?_, ?_⟩ <;> cases hc : resolveCont st req <;>
    simp [run_code, hc, afterResolve]

/-- C5 witness: concrete new-run instance of `c5_transport_store_effect`. -/
theorem c5_witness :
    (run_code [] ⟨71, some "print(1)", none, none⟩ "fid" "gid"
      (.transportFailure "down")).store =
      dictInsert [] "fid" ⟨some "print(1)", ""⟩ :=
  (c5_transport_store_effect [] ⟨71, some "print(1)", none, none⟩ "fid" "gid" "down").2.1 rfl

/-- C6 counterexample: the same awaiting-input run executed once with the
unknown id `"does-not-exist"` and once with no `execution_id` produces
different outcomes (the former returns the caller's unknown id, the latter a
freshly minted one) and different stores (only the former stores the session
under the unknown id). -/
theorem c6_counterexample :
    (run_code [] ⟨71, some "src", none, some "does-not-exist"⟩ "f1" "f2"
      (.ok ⟨some (some "Enter your name: "), none, none, none⟩)).outcome ≠
    (run_code [] ⟨71, some "src", none, none⟩ "f1" "f2"
      (.ok ⟨some (some "Enter your name: "), none, none, none⟩)).outcome ∧
    dictFind (run_code [] ⟨71, some "src", none, some "does-not-exist"⟩ "f1" "f2"
      (.ok ⟨some (some "Enter your name: "), none, none, none⟩)).store "does-not-exist" ≠
    dictFind (run_code [] ⟨71, some "src", none, none⟩ "f1" "f2"
      (.ok ⟨some (some "Enter your name: "), none, none, none⟩)).store "does-not-exist" := by
  decide

/-- C6 (amended): an unknown `execution_id` is treated as a new run, never an
error: the sandbox call is identical to the same request with no
`execution_id`; on a transport failure or a run classified as complete the
whole result (outcome and store) is identical in both cases; but when the run
is classified as awaiting input, the unknown caller-supplied id is reused as
the returned `execution_id` (and the session is stored under it), whereas
with no id a fresh id is minted. -/
theorem c6_unknown_id_new_run (st : Store) (lang : Int) (src sin : Option String)
    (f1 f2 eid : String) (sb : SandboxResult)
    (hne : eid.isEmpty = false) (hf : dictFind st eid = none) :
    (run_code st ⟨lang, src, sin, some eid⟩ f1 f2 sb).call =
      (run_code st ⟨lang, src, sin, none⟩ f1 f2 sb).call ∧
    (∀ msg, sb = .transportFailure msg →
      run_code st ⟨lang, src, sin, some eid⟩ f1 f2 sb =
        run_code st ⟨lang, src, sin, none⟩ f1 f2 sb) ∧
    (∀ resp s, sb = .ok resp → pyGet resp.stdout "" = some s →
      requiresInputFlag s = false →
        run_code st ⟨lang, src, sin, some eid⟩ f1 f2 sb =
          run_code st ⟨lang, src, sin, none⟩ f1 f2 sb) ∧
    (∀ resp s, sb = .ok resp → pyGet resp.stdout "" = some s →
      requiresInputFlag s = true →
        (run_code st ⟨lang, src, sin, some eid⟩ f1 f2 sb).outcome =
          .ok ⟨s, errorChain resp, true, some eid⟩ ∧
        (run_code st ⟨lang, src, sin, some eid⟩ f1 f2 sb).store =
          dictInsert (dictInsert st f1 ⟨src, sin.getD ""⟩) eid ⟨src, sin.getD ""⟩ ∧
        dictFind (run_code st ⟨lang, src, sin, some eid⟩ f1 f2 sb).store eid =
          some ⟨src, sin.getD ""⟩ ∧
        (run_code st ⟨lang, src, sin, none⟩ f1 f2 sb).outcome =
          .ok ⟨s, errorChain resp, true, some f2⟩ ∧
        (run_code st ⟨lang, src, sin, none⟩ f1 f2 sb).store =
          dictInsert (dictInsert st f1 ⟨src, sin.getD ""⟩) f2 ⟨src, sin.getD ""⟩) := by
  have hr : resolveCont st ⟨lang, src, sin, some eid⟩ = none := by
    simp [resolveCont, hne, hf]
  have hr' : resolveCont st ⟨lang, src, sin, none⟩ = none := by
    simp [resolveCont]
  refine ⟨?_, ?_, ?_, ?_⟩
  · simp [run_code, hr, hr', afterResolve_call]
  · rintro msg rfl
    simp [run_code, hr, hr', afterResolve]
  · rintro resp s rfl hs hni
    simp [run_code, hr, hr', afterResolve, hs, hni]
  · rintro resp s rfl hs hyes
    refine ⟨?_, ?_, ?_, ?_, ?_⟩ <;>
      simp [run_code, hr, hr', afterResolve, hs, hyes, pyOrId, hne,
        dictFind_dictInsert]

/-- C6 witness: awaiting-input instance of `c6_unknown_id_new_run` — with the
unknown id the response echoes `"does-not-exist"` and the session is stored
under that id; without it the fresh id is returned and used as the key. -/
theorem c6_witness :
    (run_code [] ⟨71, some "src", none, some "does-not-exist"⟩ "f1" "f2"
      (.ok ⟨some (some "Enter your name: "), none, none, none⟩)).outcome =
      .ok ⟨"Enter your name: ", some "", true, some "does-not-exist"⟩ ∧
    (run_code [] ⟨71, some "src", none, some "does-not-exist"⟩ "f1" "f2"
      (.ok ⟨some (some "Enter your name: "), none, none, none⟩)).store =
      dictInsert (dictInsert [] "f1" ⟨some "src", ""⟩) "does-not-exist"
        ⟨some "src", ""⟩ ∧
    dictFind (run_code [] ⟨71, some "src", none, some "does-not-exist"⟩ "f1" "f2"
      (.ok ⟨some (some "Enter your name: "), none, none, none⟩)).store
      "does-not-exist" = some ⟨some "src", ""⟩ ∧
    (run_code [] ⟨71, some "src", none, none⟩ "f1" "f2"
      (.ok ⟨some (some "Enter your name: "), none, none, none⟩)).outcome =
      .ok ⟨"Enter your name: ", some "", true, some "f2"⟩ ∧
    (run_code [] ⟨71, some "src", none, none⟩ "f1" "f2"
      (.ok ⟨some (some "Enter your name: "), none, none, none⟩)).store =
      dictInsert (dictInsert [] "f1" ⟨some "src", ""⟩) "f2" ⟨some "src", ""⟩ :=
  (c6_unknown_id_new_run [] 71 (some "src") none "f1" "f2" "does-not-exist"
    (.ok ⟨some (some "Enter your name: "), none, none, none⟩)
    (by decide) (by decide)).2.2.2
    ⟨some (some "Enter your name: "), none, none, none⟩ "Enter your name: "
    rfl rfl (by decide)

/-- C7 counterexample: continuing session `"sid"` (accumulated input `"A"`)
with an absent stdin chunk makes the sandbox receive `"A\n"`, not the
accumulated input `"A"` unchanged — the newline separator is appended even
for an empty chunk. -/
theorem c7_counterexample :
    (run_code [("sid", ⟨some "src", "A"⟩)] ⟨71, none, none, some "sid"⟩ "f1" "f2"
      (.transportFailure "x")).call.stdin = "A\n" ∧
    (run_code [("sid", ⟨some "src", "A"⟩)] ⟨71, none, none, some "sid"⟩ "f1" "f2"
      (.transportFailure "x")).call.stdin ≠ "A" := by decide

/-- C7 (amended): for a continuation whose request supplies an empty or
absent stdin chunk, the effective input stream delivered to the sandbox is
the session's accumulated input followed by one newline character: the
newline separator is introduced unconditionally, also for an empty chunk. -/
theorem c7_empty_chunk_stream (st : Store) (req : CodeRequest) (f1 f2 : String)
    (sb : SandboxResult) (eid : String) (entry : ExecEntry)
    (he : req.execution_id = some eid) (hne : eid.isEmpty = false)
    (hf : dictFind st eid = some entry)
    (hc : req.stdin = none ∨ req.stdin = some "") :
    (run_code st req f1 f2 sb).call.stdin = entry.stdin ++ "\n" := by
  have hr := resolveCont_some st req eid entry he hne hf
  rcases hc with hc | hc <;>
    simp [run_code, hr, afterResolve_call, hc, String.append_empty]

/-- C7 witness: concrete instance of `c7_empty_chunk_stream`. -/
theorem c7_witness :
    (run_code [("sid", ⟨some "src", "A"⟩)] ⟨71, none, none, some "sid"⟩ "f1" "f2"
      (.transportFailure "x")).call.stdin = "A" ++ "\n" :=
  c7_empty_chunk_stream [("sid", ⟨some "src", "A"⟩)] ⟨71, none, none, some "sid"⟩
    "f1" "f2" (.transportFailure "x") "sid" ⟨some "src", "A"⟩
    rfl (by decide) (by decide) (Or.inl rfl)

/-- C8 counterexample: a sandbox response whose `stdout` key is present with
JSON null is not tolerated: the handler raises an unhandled
`AttributeError` (from `output.lower()` on `None`) instead of producing a
run outcome. -/
theorem c8_counterexample :
    (run_code [] ⟨71, some "src", none, none⟩ "f1" "f2"
      (.ok ⟨some none, none, none, none⟩)).outcome = .uncaught "AttributeError" := by decide

/-- C8 (amended): for every sandbox response in which any subset of the four
fields is absent — but whose `stdout`, if present, is not null — the handler
produces a run outcome without raising: an absent `stdout` is treated as
empty text, classification proceeds on the resulting output, and the
diagnostic is built by the priority chain stderr, then compile_output, then
message. -/
theorem c8_absent_fields_tolerated (st : Store) (req : CodeRequest) (f1 f2 : String)
    (resp : SandboxResponse) (hnn : resp.stdout ≠ some none) :
    (run_code st req f1 f2 (.ok resp)).outcome =
      .ok ⟨(pyGet resp.stdout "").getD "", errorChain resp,
        requiresInputFlag ((pyGet resp.stdout "").getD ""),
        if requiresInputFlag ((pyGet resp.stdout "").getD "") then
          some (pyOrId req.execution_id f2) else none⟩ ∧
    errorChain resp =
      pyOrStrOpt (pyGet resp.stderr "")
        (pyOrStrOpt (pyGet resp.compile_output "") (pyGet resp.message "")) ∧
    (resp.stdout = none → (pyGet resp.stdout "").getD "" = "") := by
  have hsome : ∃ s, pyGet resp.stdout "" = some s := by
    cases h : resp.stdout with
    | none => exact ⟨"", rfl⟩
    | some v =>
        cases v with
        | none => exact absurd h hnn
        | some s => exact ⟨s, by simp [pyGet, h]⟩
  obtain ⟨s, hs⟩ := hsome
  refine ⟨?_, rfl, ?_⟩
  · rw [hs]
    simpa using run_code_outcome_ok st req f1 f2 resp s hs
  · intro h0; simp [pyGet, h0]

/-- C8 witness: a response with only `compile_output` present (stdout, stderr
and message all absent) is tolerated and the diagnostic chain selects the
compile diagnostic. -/
theorem c8_witness :
    (run_code [] ⟨71, some "src", none, none⟩ "f1" "f2"
      (.ok ⟨none, none, some (some "compile err"), none⟩)).outcome =
      .ok ⟨(pyGet (some (some "")) "").getD "",
        errorChain ⟨none, none, some (some "compile err"), none⟩,
        requiresInputFlag "", if requiresInputFlag "" then some "f2" else none⟩ ∧
    errorChain ⟨none, none, some (some "compile err"), none⟩ =
      pyOrStrOpt (pyGet none "") (pyOrStrOpt (pyGet (some (some "compile err")) "")
        (pyGet none "")) ∧
    ((none : Option (Option String)) = none → ((pyGet none "").getD "" : String) = "") := by
  have h := c8_absent_fields_tolerated [] ⟨71, some "src", none, none⟩ "f1" "f2"
    ⟨none, none, some (some "compile err"), none⟩ (by decide)
  exact ⟨h.1, h.2.1, fun _ => rfl⟩

/-- C9 counterexample: on a transport-level completion failure the
explain-error endpoint raises an unhandled `KeyError` (it indexes
`result["choices"]` on the `{"error": ...}` dict) instead of surfacing a
completion-unavailable outcome, and the search endpoint raises an unhandled
`IndexError` when the response carries an empty candidate list. -/
theorem c9_counterexample :
    explain_error .httpStatusError = .uncaught "KeyError" ∧
    chatgpt_search (.ok ⟨some []⟩) = .uncaught "IndexError" := by decide

/-- C9 (amended): for the two transport failures that `make_openai_request`
catches (HTTP status error, read timeout), the translate and debug endpoints
surface a distinct HTTP 500 error and the search endpoint returns a fallback
string, but explain-error raises an unhandled `KeyError`; a connection-level
failure (any other httpx exception, e.g. `ConnectError`) is caught nowhere
and crashes all four endpoints with the propagating exception; and a
response with an empty candidate list raises an unhandled `IndexError` in
all four endpoints. -/
theorem c9_completion_failure_behavior (t : OpenAITransport) (resp : OpenAIResponse)
    (exc : String)
    (ht : t = .httpStatusError ∨ t = .readTimeout) (hr : resp.choices = some []) :
    (∃ m, translate_code t = .httpError 500 m) ∧
    (∃ m, debug_code t = .httpError 500 m) ∧
    explain_error t = .uncaught "KeyError" ∧
    chatgpt_search t = .ok "Error fetching code" ∧
    explain_error (.connectionFailure exc) = .uncaught exc ∧
    translate_code (.connectionFailure exc) = .uncaught exc ∧
    debug_code (.connectionFailure exc) = .uncaught exc ∧
    chatgpt_search (.connectionFailure exc) = .uncaught exc ∧
    explain_error (.ok resp) = .uncaught "IndexError" ∧
    translate_code (.ok resp) = .uncaught "IndexError" ∧
    debug_code (.ok resp) = .uncaught "IndexError" ∧
    chatgpt_search (.ok resp) = .uncaught "IndexError" := by
  obtain ⟨cs⟩ := resp
  rcases ht with h | h <;> subst h <;>
    simp_all [translate_code, debug_code, explain_error, chatgpt_search,
      make_openai_request, extractContent]

/-- C9 witness: concrete instance of `c9_completion_failure_behavior` at an
HTTP status failure, a connection failure and an empty candidate list. -/
theorem c9_witness :
    (∃ m, translate_code .httpStatusError = .httpError 500 m) ∧
    (∃ m, debug_code .httpStatusError = .httpError 500 m) ∧
    explain_error .httpStatusError = .uncaught "KeyError" ∧
    chatgpt_search .httpStatusError = .ok "Error fetching code" ∧
    explain_error (.connectionFailure "ConnectError") = .uncaught "ConnectError" ∧
    translate_code (.connectionFailure "ConnectError") = .uncaught "ConnectError" ∧
    debug_code (.connectionFailure "ConnectError") = .uncaught "ConnectError" ∧
    chatgpt_search (.connectionFailure "ConnectError") = .uncaught "ConnectError" ∧
    explain_error (.ok ⟨some []⟩) = .uncaught "IndexError" ∧
    translate_code (.ok ⟨some []⟩) = .uncaught "IndexError" ∧
    debug_code (.ok ⟨some []⟩) = .uncaught "IndexError" ∧
    chatgpt_search (.ok ⟨some []⟩) = .uncaught "IndexError" :=
  c9_completion_failure_behavior .httpStatusError ⟨some []⟩ "ConnectError"
    (Or.inl rfl) rfl

/-- C10: the `executions` store never shrinks: on every handled run request —
any store, request, fresh ids and sandbox answer, so including complete
classifications and transport failures — every session id present before the
request is still present afterwards. -/
theorem c10_store_never_shrinks (st : Store) (req : CodeRequest) (f1 f2 : String)
    (sb : SandboxResult) (id : String) (h : (dictFind st id).isSome = true) :
    (dictFind (run_code st req f1 f2 sb).store id).isSome = true := by
  cases hc : resolveCont st req with
  | some entry =>
      rcases afterResolve_store req f2 entry.source_code
          (entry.stdin ++ "\n" ++ (req.stdin.getD "")) st sb with h1 | ⟨k, v, h1⟩ <;>
        simp only [run_code, hc] <;> rw [h1]
      · exact h
      · exact dictFind_isSome_dictInsert st k v id h
  | none =>
      have hbase := dictFind_isSome_dictInsert st f1
        ⟨req.source_code, req.stdin.getD ""⟩ id h
      rcases afterResolve_store req f2 req.source_code (req.stdin.getD "")
          (dictInsert st f1 ⟨req.source_code, req.stdin.getD ""⟩) sb with h1 | ⟨k, v, h1⟩ <;>
        simp only [run_code, hc] <;> rw [h1]
      · exact hbase
      · exact dictFind_isSome_dictInsert _ k v id hbase

/-- C10 witness: concrete instance of `c10_store_never_shrinks` — the session
survives a request classified as complete would too, here a transport
failure is shown. -/
theorem c10_witness :
    (dictFind (run_code [("sid", ⟨some "src", ""⟩)] ⟨71, none, some "x", some "sid"⟩
      "f1" "f2" (.transportFailure "down")).store "sid").isSome = true :=
  c10_store_never_shrinks [("sid", ⟨some "src", ""⟩)] ⟨71, none, some "x", some "sid"⟩
    "f1" "f2" (.transportFailure "down") "sid" (by decide)
